import Mathlib

/-!
Verification of the signature-detection and extraction engine of the
`hextoimage` repository against its natural-language specification.

The engine lives in `src/core/analyzers.py`, `src/core/validators.py`,
`src/core/signatures.py` and `src/core/exporters.py`.  Binary data is
modelled as `List Nat` (one entry per byte), confidences as exact
rationals `ℚ`, and the Python functions are translated one-to-one below.
Filesystem effects in the exporter (directory creation, file writes) are
out of the modelled core: the pure model records the bytes that the
exporter would write and treats every write as succeeding, which is the
only path the claims exercise.
-/

/-- Predicate `matchesAt data pattern p`: holds when `data[p : p + len(pattern)] == pattern`
in Python slice semantics, i.e. the pattern fits inside the buffer at
offset `p` and the bytes agree.  For the empty pattern this holds exactly
when `p ≤ data.length`, matching CPython's `bytes.find` behaviour. -/
def matchesAt (data pattern : List Nat) (p : Nat) : Bool :=
  decide (p + pattern.length ≤ data.length) &&
    ((data.drop p).take pattern.length == pattern)

/-- Model of Python's `data.find(pattern, start)` for a non-negative
`start`: the least offset `p ≥ start` at which `pattern` occurs in
`data`, or `none` when there is no such offset (Python returns `-1`). -/
def pyFind (data pattern : List Nat) (start : Nat) : Option Nat :=
  (List.range (data.length + 1)).find? (fun p => decide (start ≤ p) && matchesAt data pattern p)

/-- Loop body of `find_pattern_positions` (`analyzers.py`): repeatedly
call `data.find(pattern, start)` and restart one past each match.  The
source's `while True` loop always terminates because each found position
is at least `start` and at most `data.length`; `fuel` bounds the number
of iterations and `data.length + 1 - start` iterations always suffice. -/
def findPatternPositionsAux (data pattern : List Nat) (fuel start : Nat) : List Nat :=
  match fuel with
  | 0 => []
  | fuel' + 1 =>
    match pyFind data pattern start with
    | none => []
    | some pos => pos :: findPatternPositionsAux data pattern fuel' (pos + 1)

/-- Function `find_pattern_positions` from `analyzers.py`: all positions where
`pattern` occurs in `data`, scanning with restart after each match
start. -/
def find_pattern_positions (data pattern : List Nat) : List Nat :=
  findPatternPositionsAux data pattern (data.length + 1) 0

/-- Structure `FileSignature` from `signatures.py`.  The Python class also stores a
`validator` callback; the callback is dispatched on `file_type` by
`validate_format` below (mirroring `VALIDATOR_REGISTRY`), so the field
itself is not reproduced. -/
structure FileSignature where
  file_type : String
  extension : String
  start_pattern : List Nat
  end_pattern : Option (List Nat) := none
  description : String := ""
  min_size : Nat := 0
  deriving DecidableEq, Repr

/-- Registry `SIGNATURE_REGISTRY` from `signatures.py`, in Python dict insertion
order: JPEG, PNG, GIF, WEBP, TIFF. -/
def SIGNATURE_REGISTRY : List (String × FileSignature) :=
  [ ("JPEG",
     { file_type := "JPEG", extension := "jpg",
       start_pattern := [0xFF, 0xD8, 0xFF],
       end_pattern := some [0xFF, 0xD9],
       description := "JPEG Image File (JFIF/Exif/Generic)",
       min_size := 100 }),
    ("PNG",
     { file_type := "PNG", extension := "png",
       start_pattern := [0x89, 0x50, 0x4E, 0x47, 0x0D, 0x0A, 0x1A, 0x0A],
       end_pattern := some [0x49, 0x45, 0x4E, 0x44, 0xAE, 0x42, 0x60, 0x82],
       description := "Portable Network Graphics Image",
       min_size := 50 }),
    ("GIF",
     { file_type := "GIF", extension := "gif",
       start_pattern := [0x47, 0x49, 0x46, 0x38],
       end_pattern := some [0x00, 0x3B],
       description := "Graphics Interchange Format Image",
       min_size := 35 }),
    ("WEBP",
     { file_type := "WEBP", extension := "webp",
       start_pattern := [0x52, 0x49, 0x46, 0x46],
       end_pattern := none,
       description := "WebP Image Format",
       min_size := 20 }),
    ("TIFF",
     { file_type := "TIFF", extension := "tiff",
       start_pattern := [0x49, 0x49, 0x2A, 0x00],
       end_pattern := none,
       description := "Tagged Image File Format",
       min_size := 26 }) ]

/-- Lookup `SIGNATURE_REGISTRY[file_type]` with the `in` test of the
Python dict. -/
def lookupSignature (file_type : String) : Option FileSignature :=
  (SIGNATURE_REGISTRY.find? (fun kv => kv.1 == file_type)).map (·.2)

/-- The registry's key list, used when `target_types is None`. -/
def registryKeys : List String := SIGNATURE_REGISTRY.map (·.1)

/-- Function `find_signature_positions` from `analyzers.py` (the hex-data
reconstruction step is the identity on an already-assembled buffer):
generic start-pattern search, the TIFF big-endian extension, the WEBP
`RIFF`→`WEBP` pre-filter, and end-pattern resolution. -/
def find_signature_positions (binary_data : List Nat) (signature : FileSignature) :
    List (Nat × Option Nat) :=
  let start_positions := find_pattern_positions binary_data signature.start_pattern
  let start_positions :=
    if signature.file_type = "TIFF" then
      start_positions ++ find_pattern_positions binary_data [0x4D, 0x4D, 0x00, 0x2A]
    else start_positions
  let start_positions :=
    if signature.file_type = "WEBP" then
      start_positions.filter (fun pos =>
        decide (pos + 12 ≤ binary_data.length) &&
          ((binary_data.drop (pos + 8)).take 4 == [0x57, 0x45, 0x42, 0x50]))
    else start_positions
  start_positions.map (fun start_pos =>
    match signature.end_pattern with
    | some ep =>
      match pyFind binary_data ep (start_pos + signature.start_pattern.length) with
      | some end_pattern_pos => (start_pos, some (end_pattern_pos + ep.length))
      | none => (start_pos, none)
    | none => (start_pos, none))

/-- Function `validate_jpeg_format` from `validators.py`: marker-family analysis of
the byte following the `FF D8 FF` start pattern, with sub-checks for the
JFIF / Exif / SPIFF identification strings. -/
def validate_jpeg_format (binary_data : List Nat) (start_pos : Nat)
    (_end_pos : Option Nat) : ℚ :=
  let confidence : ℚ := 1
  if start_pos + 10 ≤ binary_data.length then
    let jpeg_header := (binary_data.drop start_pos).take 10
    if 4 ≤ jpeg_header.length then
      let fourth_byte := jpeg_header.getD 3 0
      if fourth_byte = 0xE0 ∧ start_pos + 14 ≤ binary_data.length then
        if (binary_data.drop (start_pos + 6)).take 4 = [0x4A, 0x46, 0x49, 0x46] then
          confidence * 1
        else
          confidence * (8 / 10)
      else if fourth_byte = 0xE1 ∧ start_pos + 10 ≤ binary_data.length then
        if (binary_data.drop (start_pos + 10)).take 4 = [0x45, 0x78, 0x69, 0x66] then
          confidence * 1
        else
          confidence * (8 / 10)
      else if fourth_byte = 0xE8 ∧ start_pos + 14 ≤ binary_data.length then
        if (binary_data.drop (start_pos + 6)).take 5 = [0x53, 0x50, 0x49, 0x46, 0x46] then
          confidence * 1
        else
          confidence * (7 / 10)
      else if fourth_byte = 0xDB then
        confidence * (9 / 10)
      else if fourth_byte = 0xC0 then
        confidence * (9 / 10)
      else if 0xC0 ≤ fourth_byte ∧ fourth_byte ≤ 0xCF then
        confidence * (8 / 10)
      else
        confidence * (6 / 10)
    else
      confidence * (3 / 10)
  else
    confidence * (2 / 10)

/-- Function `validate_webp_format` from `validators.py`: require `WEBP` at bytes
`[start+8, start+12)` of the RIFF container. -/
def validate_webp_format (binary_data : List Nat) (start_pos : Nat)
    (_end_pos : Option Nat) : ℚ :=
  let confidence : ℚ := 1
  if start_pos + 12 ≤ binary_data.length then
    let riff_header := (binary_data.drop start_pos).take 12
    if 12 ≤ riff_header.length then
      if (riff_header.drop 8).take 4 ≠ [0x57, 0x45, 0x42, 0x50] then
        confidence * (1 / 10)
      else
        confidence
    else
      confidence * (2 / 10)
  else
    confidence * (2 / 10)

/-- Function `validate_gif_format` from `validators.py`: require a `GIF87a` or
`GIF89a` header. -/
def validate_gif_format (binary_data : List Nat) (start_pos : Nat)
    (_end_pos : Option Nat) : ℚ :=
  let confidence : ℚ := 1
  if start_pos + 6 ≤ binary_data.length then
    let gif_header := (binary_data.drop start_pos).take 6
    if gif_header ≠ [0x47, 0x49, 0x46, 0x38, 0x37, 0x61] ∧
        gif_header ≠ [0x47, 0x49, 0x46, 0x38, 0x39, 0x61] then
      confidence * (3 / 10)
    else
      confidence
  else
    confidence * (2 / 10)

/-- Function `validate_png_format` from `validators.py`: require the `IHDR` chunk
tag at bytes `[start+12, start+16)`. -/
def validate_png_format (binary_data : List Nat) (start_pos : Nat)
    (_end_pos : Option Nat) : ℚ :=
  let confidence : ℚ := 1
  if start_pos + 16 ≤ binary_data.length then
    let ihdr_chunk := (binary_data.drop (start_pos + 8)).take 8
    if 8 ≤ ihdr_chunk.length then
      if (ihdr_chunk.drop 4).take 4 ≠ [0x49, 0x48, 0x44, 0x52] then
        confidence * (4 / 10)
      else
        confidence
    else
      confidence * (3 / 10)
  else
    confidence * (2 / 10)

/-- Little-endian value of (up to) four bytes, as in
`int.from_bytes(b, byteorder='little')`. -/
def leU32 (b : List Nat) : Nat :=
  b.getD 0 0 + 256 * b.getD 1 0 + 65536 * b.getD 2 0 + 16777216 * b.getD 3 0

/-- Big-endian value of four bytes, as in
`int.from_bytes(b, byteorder='big')`. -/
def beU32 (b : List Nat) : Nat :=
  16777216 * b.getD 0 0 + 65536 * b.getD 1 0 + 256 * b.getD 2 0 + b.getD 3 0

/-- Function `validate_tiff_format` from `validators.py`: byte-order magic plus a
plausibility check on the 4-byte IFD-offset field. -/
def validate_tiff_format (binary_data : List Nat) (start_pos : Nat)
    (_end_pos : Option Nat) : ℚ :=
  let confidence : ℚ := 1
  if start_pos + 8 ≤ binary_data.length then
    let tiff_header := (binary_data.drop start_pos).take 8
    if 4 ≤ tiff_header.length then
      if tiff_header.take 4 = [0x49, 0x49, 0x2A, 0x00] then
        if 8 ≤ tiff_header.length then
          let ifd_offset := leU32 ((tiff_header.drop 4).take 4)
          if ifd_offset < 8 ∨ binary_data.length - start_pos < ifd_offset then
            confidence * (5 / 10)
          else
            confidence
        else
          confidence * (3 / 10)
      else if tiff_header.take 4 = [0x4D, 0x4D, 0x00, 0x2A] then
        if 8 ≤ tiff_header.length then
          let ifd_offset := beU32 ((tiff_header.drop 4).take 4)
          if ifd_offset < 8 ∨ binary_data.length - start_pos < ifd_offset then
            confidence * (5 / 10)
          else
            confidence
        else
          confidence * (3 / 10)
      else
        confidence * (2 / 10)
    else
      confidence * (2 / 10)
  else
    confidence * (2 / 10)

/-- Function `validate_format` from `validators.py`: dispatch through
`VALIDATOR_REGISTRY`, defaulting to confidence `1.0` for unknown
types. -/
def validate_format (file_type : String) (binary_data : List Nat) (start_pos : Nat)
    (end_pos : Option Nat) : ℚ :=
  if file_type = "JPEG" then validate_jpeg_format binary_data start_pos end_pos
  else if file_type = "WEBP" then validate_webp_format binary_data start_pos end_pos
  else if file_type = "GIF" then validate_gif_format binary_data start_pos end_pos
  else if file_type = "PNG" then validate_png_format binary_data start_pos end_pos
  else if file_type = "TIFF" then validate_tiff_format binary_data start_pos end_pos
  else 1

/-- Structure `DetectedFile` from `analyzers.py`. -/
structure DetectedFile where
  file_type : String
  start_offset : Nat
  end_offset : Option Nat
  size : Option Nat
  signature : FileSignature
  confidence : ℚ := 1
  deriving DecidableEq, Repr

/-- The minimum-size block of `validate_detected_file` (`analyzers.py`),
as a transformer of the running confidence. -/
def sizeCheckConfidence (binary_data : List Nat) (start_pos : Nat)
    (end_pos : Option Nat) (signature : FileSignature) (confidence : ℚ) : ℚ :=
  match end_pos with
  | some e =>
    if e - start_pos < signature.min_size then confidence * (3 / 10) else confidence
  | none =>
    if 0 < signature.min_size then
      if binary_data.length - start_pos < signature.min_size then
        confidence * (5 / 10)
      else confidence
    else confidence

/-- The per-type block of `validate_detected_file` (`analyzers.py`), as a
transformer of the running confidence.  The source duplicates the
WEBP/GIF/JPEG logic of `validators.py` inline and has no branch for PNG
or TIFF; the duplication is reproduced here as written. -/
def typeCheckConfidence (binary_data : List Nat) (start_pos : Nat)
    (signature : FileSignature) (confidence : ℚ) : ℚ :=
  if signature.file_type = "WEBP" then
    if start_pos + 12 ≤ binary_data.length then
      let riff_header := (binary_data.drop start_pos).take 12
      if 12 ≤ riff_header.length then
        if (riff_header.drop 8).take 4 ≠ [0x57, 0x45, 0x42, 0x50] then
          confidence * (1 / 10)
        else confidence
      else confidence * (2 / 10)
    else
      confidence * (2 / 10)
  else if signature.file_type = "GIF" then
    if start_pos + 6 ≤ binary_data.length then
      let gif_header := (binary_data.drop start_pos).take 6
      if gif_header ≠ [0x47, 0x49, 0x46, 0x38, 0x37, 0x61] ∧
          gif_header ≠ [0x47, 0x49, 0x46, 0x38, 0x39, 0x61] then
        confidence * (3 / 10)
      else confidence
    else
      confidence * (2 / 10)
  else if signature.file_type = "JPEG" then
    if start_pos + 10 ≤ binary_data.length then
      let jpeg_header := (binary_data.drop start_pos).take 10
      if 4 ≤ jpeg_header.length then
        let fourth_byte := jpeg_header.getD 3 0
        if fourth_byte = 0xE0 ∧ start_pos + 14 ≤ binary_data.length then
          if (binary_data.drop (start_pos + 6)).take 4 = [0x4A, 0x46, 0x49, 0x46] then
            confidence * 1
          else
            confidence * (8 / 10)
        else if fourth_byte = 0xE1 ∧ start_pos + 10 ≤ binary_data.length then
          if (binary_data.drop (start_pos + 10)).take 4 = [0x45, 0x78, 0x69, 0x66] then
            confidence * 1
          else
            confidence * (8 / 10)
        else if fourth_byte = 0xE8 ∧ start_pos + 14 ≤ binary_data.length then
          if (binary_data.drop (start_pos + 6)).take 5 = [0x53, 0x50, 0x49, 0x46, 0x46] then
            confidence * 1
          else
            confidence * (7 / 10)
        else if fourth_byte = 0xDB then
          confidence * (9 / 10)
        else if fourth_byte = 0xC0 then
          confidence * (9 / 10)
        else if 0xC0 ≤ fourth_byte ∧ fourth_byte ≤ 0xCF then
          confidence * (8 / 10)
        else
          confidence * (6 / 10)
      else
        confidence * (3 / 10)
    else
      confidence * (2 / 10)
  else
    confidence

/-- Function `validate_detected_file` from `analyzers.py`: start from confidence
`1.0`, apply the minimum-size check, then the inline per-type check.
Only WEBP, GIF and JPEG have a per-type branch; the validators that
`signatures.py` attaches to PNG and TIFF are never invoked here. -/
def validate_detected_file (binary_data : List Nat) (start_pos : Nat)
    (end_pos : Option Nat) (signature : FileSignature) : ℚ :=
  typeCheckConfidence binary_data start_pos signature
    (sizeCheckConfidence binary_data start_pos end_pos signature 1)

/-- Stable ascending sort by `start_offset`, as performed by
`detected_files.sort(key=lambda x: x.start_offset)` (Python's sort is
stable; a stable insertion sort has the same input/output behaviour and
reduces inside the kernel). -/
def sortByStart (l : List DetectedFile) : List DetectedFile :=
  l.insertionSort (fun a b => a.start_offset ≤ b.start_offset)

/-- Function `detect_file_signatures` from `analyzers.py`: per-type signature
search, confidence scoring, and the final stable sort by start offset.
`target_types = none` models the Python default of `None`. -/
def detect_file_signatures (binary_data : List Nat)
    (target_types : Option (List String)) : List DetectedFile :=
  let targets := match target_types with
    | none => registryKeys
    | some l => l
  let detected := targets.flatMap (fun file_type =>
    match lookupSignature file_type with
    | none => []
    | some signature =>
      (find_signature_positions binary_data signature).map (fun se =>
        { file_type := file_type
          start_offset := se.1
          end_offset := se.2
          size := se.2.map (fun e => e - se.1)
          signature := signature
          confidence := validate_detected_file binary_data se.1 se.2 signature }))
  sortByStart detected

/-- The per-type tally of `analyze_file_content` from `analyzers.py`,
as an association list in first-seen order (Python dict semantics of
`summary.get(t, 0) + 1`). -/
def analysisSummary (detected : List DetectedFile) : List (String × Nat) :=
  detected.foldl (fun acc df =>
    if acc.any (fun kv => kv.1 == df.file_type) then
      acc.map (fun kv => if kv.1 == df.file_type then (kv.1, kv.2 + 1) else kv)
    else acc ++ [(df.file_type, 1)]) []

/-- One success record appended to `extracted_files` by
`extract_detected_files` (`exporters.py`).  The `data` field holds the
bytes written to disk. -/
structure ExtractedEntry where
  file_number : Nat
  filename : String
  file_type : String
  extension : String
  size : Nat
  original_start : Nat
  original_end : Option Nat
  confidence : ℚ
  data : List Nat
  deriving DecidableEq, Repr

/-- One failure record appended to `failed_extractions` by
`extract_detected_files` (`exporters.py`). -/
structure FailedEntry where
  file_number : Nat
  file_type : String
  reason : String
  deriving DecidableEq, Repr

/-- Structure `ExtractionResult` from `exporters.py` (source path and output
directory are identification strings passed through unchanged). -/
structure ExtractionResult where
  output_directory : String
  extracted_files : List ExtractedEntry
  total_extracted : Nat
  failed_extractions : List FailedEntry
  success_rate : ℚ
  deriving DecidableEq, Repr

/-- Zero-padding of Python's `f"{n:03d}"` (pad to at least three
digits). -/
def pad3 (n : Nat) : String :=
  if n < 10 then "00" ++ toString n
  else if n < 100 then "0" ++ toString n
  else toString n

/-- Function `generate_filename` from `exporters.py`. -/
def generate_filename (detected_file : DetectedFile) (file_number : Nat)
    (use_original_extension : Bool := true) : String :=
  let extension := if use_original_extension then detected_file.signature.extension else "bin"
  "file-" ++ pad3 file_number ++ "." ++ extension

/-- Function `extract_file_data` from `exporters.py`: slice
`binary_data[start:end]` (or `binary_data[start:]` when the end is
unknown) and reject slices below the format's `min_size`. -/
def extract_file_data (binary_data : List Nat) (detected_file : DetectedFile) :
    Option (List Nat) :=
  let extracted_data :=
    match detected_file.end_offset with
    | none => binary_data.drop detected_file.start_offset
    | some e => (binary_data.drop detected_file.start_offset).take (e - detected_file.start_offset)
  if extracted_data.length < detected_file.signature.min_size then none
  else some extracted_data

/-- The guard `if file_types and detected_file.file_type not in file_types`
of `extract_detected_files` (`exporters.py`): Python's truthiness makes
the test a no-op for `None` and for the empty list. -/
def typeFilterSkips (file_types : Option (List String)) (t : String) : Bool :=
  match file_types with
  | some l => !l.isEmpty && !(l.contains t)
  | none => false

/-- The region loop of `extract_detected_files` (`exporters.py`),
accumulating the success and failure records.  A type-filter skip leaves
the counter untouched; a confidence failure explicitly increments it
before `continue`; the size-failure branch `continue`s without reaching
the increment at the bottom of the loop body; success and the other
bottom-of-loop paths increment.  Disk writes always succeed in the pure
model. -/
def extractLoop (binary_data : List Nat) (regions : List DetectedFile)
    (file_types : Option (List String)) (min_confidence : ℚ) (file_counter : Nat) :
    List ExtractedEntry × List FailedEntry :=
  match regions with
  | [] => ([], [])
  | detected_file :: rest =>
    if typeFilterSkips file_types detected_file.file_type then
      extractLoop binary_data rest file_types min_confidence file_counter
    else if detected_file.confidence < min_confidence then
      let entry : FailedEntry :=
        { file_number := file_counter, file_type := detected_file.file_type,
          reason := "Low confidence score" }
      let r := extractLoop binary_data rest file_types min_confidence (file_counter + 1)
      (r.1, entry :: r.2)
    else
      match extract_file_data binary_data detected_file with
      | none =>
        let entry : FailedEntry :=
          { file_number := file_counter, file_type := detected_file.file_type,
            reason := "Failed to extract data or file too small" }
        let r := extractLoop binary_data rest file_types min_confidence file_counter
        (r.1, entry :: r.2)
      | some file_data =>
        let entry : ExtractedEntry :=
          { file_number := file_counter
            filename := generate_filename detected_file file_counter
            file_type := detected_file.file_type
            extension := detected_file.signature.extension
            size := file_data.length
            original_start := detected_file.start_offset
            original_end := detected_file.end_offset
            confidence := detected_file.confidence
            data := file_data }
        let r := extractLoop binary_data rest file_types min_confidence (file_counter + 1)
        (entry :: r.1, r.2)

/-- Function `extract_detected_files` from `exporters.py`: run the region loop
with a 1-based counter and assemble the `ExtractionResult`, with
`success_rate = successes / attempts` and `0` when nothing was
attempted. -/
def extract_detected_files (binary_data : List Nat) (regions : List DetectedFile)
    (output_dir : String := "result") (file_types : Option (List String) := none)
    (min_confidence : ℚ := 5 / 10) : ExtractionResult :=
  let r := extractLoop binary_data regions file_types min_confidence 1
  let total_attempted := r.1.length + r.2.length
  { output_directory := output_dir
    extracted_files := r.1
    total_extracted := r.1.length
    failed_extractions := r.2
    success_rate := if 0 < total_attempted then (r.1.length : ℚ) / total_attempted else 0 }

/-! ### Properties of the pattern search -/

theorem matchesAt_le {data pattern : List Nat} {p : Nat}
    (h : matchesAt data pattern p = true) : p ≤ data.length := by
  have h1 : p + pattern.length ≤ data.length := by
    have := (Bool.and_eq_true _ _).mp h
    exact of_decide_eq_true this.1
  omega

theorem findFirstLe {q : Nat → Bool} :
    ∀ (l : List Nat), l.Pairwise (· < ·) → ∀ b, l.find? q = some b →
      ∀ a ∈ l, q a = true → b ≤ a := by
  intro l
  induction l with
  | nil => intro _ b hb; simp [List.find?] at hb
  | cons x t ih =>
    intro hpw b hb a ha hqa
    rcases List.pairwise_cons.mp hpw with ⟨hx, ht⟩
    by_cases hqx : q x = true
    · rw [List.find?_cons_of_pos _ hqx] at hb
      cases hb
      rcases List.mem_cons.mp ha with rfl | hat
      · exact Nat.le_refl _
      · exact Nat.le_of_lt (hx a hat)
    · rw [List.find?_cons_of_neg _ hqx] at hb
      rcases List.mem_cons.mp ha with rfl | hat
      · exact absurd hqa hqx
      · exact ih ht b hb a hat hqa

theorem findUniqueSome {q : Nat → Bool} :
    ∀ (l : List Nat) (k : Nat), k ∈ l → q k = true →
      (∀ a ∈ l, q a = true → a = k) → l.find? q = some k := by
  intro l
  induction l with
  | nil => intro k hk; exact absurd hk (List.not_mem_nil k)
  | cons x t ih =>
    intro k hk hqk huniq
    by_cases hqx : q x = true
    · rw [List.find?_cons_of_pos _ hqx]
      have := huniq x (List.mem_cons_self x t) hqx
      rw [this]
    · rw [List.find?_cons_of_neg _ hqx]
      rcases List.mem_cons.mp hk with rfl | hkt
      · exact absurd hqk hqx
      · exact ih k hkt hqk (fun a ha hqa => huniq a (List.mem_cons_of_mem x ha) hqa)

theorem pyFind_none_iff {data pattern : List Nat} {start : Nat} :
    pyFind data pattern start = none ↔
      ∀ p, start ≤ p → matchesAt data pattern p = false := by
  constructor
  · intro h p hsp
    by_contra hm
    have hm' : matchesAt data pattern p = true := by
      cases hmp : matchesAt data pattern p
      · exact absurd hmp hm
      · rfl
    have hple : p ≤ data.length := matchesAt_le hm'
    have hmem : p ∈ List.range (data.length + 1) := List.mem_range.mpr (by omega)
    have := List.find?_eq_none.mp h p hmem
    simp only [Bool.and_eq_true, decide_eq_true_eq] at this
    exact this ⟨hsp, hm'⟩
  · intro h
    apply List.find?_eq_none.mpr
    intro p _
    simp only [Bool.and_eq_true, decide_eq_true_eq, not_and]
    intro hsp
    simp [h p hsp]

theorem pyFind_some_facts {data pattern : List Nat} {start k : Nat}
    (h : pyFind data pattern start = some k) :
    start ≤ k ∧ matchesAt data pattern k = true ∧
      ∀ q, start ≤ q → matchesAt data pattern q = true → k ≤ q := by
  have hq := List.find?_some h
  simp only [Bool.and_eq_true, decide_eq_true_eq] at hq
  refine ⟨hq.1, hq.2, ?_⟩
  intro q hsq hmq
  have hqle : q ≤ data.length := matchesAt_le hmq
  have hqmem : q ∈ List.range (data.length + 1) := List.mem_range.mpr (by omega)
  exact findFirstLe _ (List.pairwise_lt_range _) k h q hqmem
    (by simp only [Bool.and_eq_true, decide_eq_true_eq]; exact ⟨hsq, hmq⟩)

theorem pyFind_eq_some_of_unique {data pattern : List Nat} {start k : Nat}
    (hsk : start ≤ k) (hmk : matchesAt data pattern k = true)
    (huniq : ∀ q, matchesAt data pattern q = true → q = k) :
    pyFind data pattern start = some k := by
  have hkle : k ≤ data.length := matchesAt_le hmk
  apply findUniqueSome
  · exact List.mem_range.mpr (by omega)
  · simp only [Bool.and_eq_true, decide_eq_true_eq]; exact ⟨hsk, hmk⟩
  · intro a _ hqa
    simp only [Bool.and_eq_true, decide_eq_true_eq] at hqa
    exact huniq a hqa.2

theorem findPatternPositionsAux_lower {data pattern : List Nat} :
    ∀ (fuel start p : Nat), p ∈ findPatternPositionsAux data pattern fuel start →
      start ≤ p := by
  intro fuel
  induction fuel with
  | zero => intro start p hp; simp [findPatternPositionsAux] at hp
  | succ fuel ih =>
    intro start p hp
    unfold findPatternPositionsAux at hp
    cases hfind : pyFind data pattern start with
    | none => rw [hfind] at hp; simp at hp
    | some pos =>
      rw [hfind] at hp
      rcases List.mem_cons.mp hp with rfl | hp'
      · exact (pyFind_some_facts hfind).1
      · have := ih (pos + 1) p hp'
        have := (pyFind_some_facts hfind).1
        omega

theorem findPatternPositionsAux_pairwise {data pattern : List Nat} :
    ∀ (fuel start : Nat),
      (findPatternPositionsAux data pattern fuel start).Pairwise (· < ·) := by
  intro fuel
  induction fuel with
  | zero => intro start; simp [findPatternPositionsAux]
  | succ fuel ih =>
    intro start
    unfold findPatternPositionsAux
    cases hfind : pyFind data pattern start with
    | none => simp
    | some pos =>
      simp only [List.pairwise_cons]
      refine ⟨?_, ih (pos + 1)⟩
      intro p hp
      have := findPatternPositionsAux_lower fuel (pos + 1) p hp
      omega

theorem findPatternPositionsAux_mem {data pattern : List Nat} :
    ∀ (fuel start : Nat), data.length + 1 ≤ start + fuel →
      ∀ p, (p ∈ findPatternPositionsAux data pattern fuel start ↔
        (start ≤ p ∧ matchesAt data pattern p = true)) := by
  intro fuel
  induction fuel with
  | zero =>
    intro start hfuel p
    simp only [findPatternPositionsAux, List.not_mem_nil, false_iff, not_and]
    intro hsp hm
    have := matchesAt_le hm
    omega
  | succ fuel ih =>
    intro start hfuel p
    unfold findPatternPositionsAux
    cases hfind : pyFind data pattern start with
    | none =>
      simp only [List.not_mem_nil, false_iff, not_and]
      intro hsp hm
      have := pyFind_none_iff.mp hfind p hsp
      rw [this] at hm
      exact Bool.false_ne_true hm
    | some pos =>
      rcases pyFind_some_facts hfind with ⟨hsp, hmp, hmin⟩
      have hposle : pos ≤ data.length := matchesAt_le hmp
      rw [List.mem_cons, ih (pos + 1) (by omega) p]
      constructor
      · rintro (rfl | ⟨h1, h2⟩)
        · exact ⟨hsp, hmp⟩
        · exact ⟨by omega, h2⟩
      · rintro ⟨h1, h2⟩
        have := hmin p h1 h2
        rcases Nat.eq_or_lt_of_le this with rfl | hlt
        · exact Or.inl rfl
        · exact Or.inr ⟨by omega, h2⟩

theorem find_pattern_positions_mem {data pattern : List Nat} (p : Nat) :
    p ∈ find_pattern_positions data pattern ↔ matchesAt data pattern p = true := by
  unfold find_pattern_positions
  rw [findPatternPositionsAux_mem (data.length + 1) 0 (by omega) p]
  simp

theorem find_pattern_positions_pairwise (data pattern : List Nat) :
    (find_pattern_positions data pattern).Pairwise (· < ·) :=
  findPatternPositionsAux_pairwise _ _

theorem find_pattern_positions_eq_nil {data pattern : List Nat}
    (h : ∀ p, matchesAt data pattern p = false) :
    find_pattern_positions data pattern = [] := by
  apply List.eq_nil_iff_forall_not_mem.mpr
  intro p hp
  have := (find_pattern_positions_mem p).mp hp
  rw [h p] at this
  exact Bool.false_ne_true this

theorem sortedMemSingleton {l : List Nat} {k : Nat}
    (hpw : l.Pairwise (· < ·)) (hmem : ∀ x, x ∈ l ↔ x = k) : l = [k] := by
  match l with
  | [] =>
    exact absurd ((hmem k).mpr rfl) (List.not_mem_nil k)
  | [a] =>
    have := (hmem a).mp (List.mem_cons_self a [])
    rw [this]
  | a :: b :: t =>
    have ha : a = k := (hmem a).mp (by simp)
    have hb : b = k := (hmem b).mp (by simp)
    rcases List.pairwise_cons.mp hpw with ⟨hlt, _⟩
    have := hlt b (by simp)
    omega

theorem find_pattern_positions_eq_singleton {data pattern : List Nat} {k : Nat}
    (h : ∀ p, matchesAt data pattern p = true ↔ p = k) :
    find_pattern_positions data pattern = [k] := by
  apply sortedMemSingleton (find_pattern_positions_pairwise data pattern)
  intro x
  rw [find_pattern_positions_mem x, h x]

theorem sortedMemRange {l : List Nat} {n : Nat}
    (hpw : l.Pairwise (· < ·)) (hmem : ∀ x, x ∈ l ↔ x < n) : l = List.range n := by
  have hanti : IsAntisymm Nat (· < ·) :=
    ⟨fun a b h1 h2 => absurd h1 (Nat.lt_asymm h2)⟩
  have hnd : l.Nodup := hpw.imp (fun h => Nat.ne_of_lt h)
  have hperm : l.Perm (List.range n) := by
    rw [List.perm_ext_iff_of_nodup hnd (List.nodup_range n)]
    intro a
    rw [hmem a, List.mem_range]
  haveI := hanti
  exact List.eq_of_perm_of_sorted hperm hpw (List.pairwise_lt_range n)

/-- C3 counterexample: with both haystack and needle empty, the search
returns `[0]`, not the empty list, because CPython's `bytes.find` reports
a match of the empty pattern at every offset up to `len(data)`. -/
theorem find_pattern_positions_empty_cex :
    ¬ (find_pattern_positions [] [] = []) := by decide

/-- C3 (amended): an empty haystack with a non-empty needle yields no
matches; an empty needle matches at every offset `0..len(data)`, so in
particular the doubly-empty case yields `[0]`. -/
theorem find_pattern_positions_empty_cases (data pattern : List Nat)
    (hpat : pattern ≠ []) :
    find_pattern_positions [] pattern = [] ∧
    find_pattern_positions data [] = List.range (data.length + 1) := by
  constructor
  · apply find_pattern_positions_eq_nil
    intro p
    unfold matchesAt
    have : 0 < pattern.length := List.length_pos.mpr hpat
    simp only [List.length_nil, Bool.and_eq_false_iff, decide_eq_false_iff_not]
    left
    omega
  · apply sortedMemRange (find_pattern_positions_pairwise data [])
    intro x
    rw [find_pattern_positions_mem x]
    unfold matchesAt
    simp
    omega

/-- Witness for the amended C3 at concrete inputs. -/
theorem find_pattern_positions_empty_cases_witness :
    find_pattern_positions [] [1] = [] ∧
    find_pattern_positions [2, 3] [] = List.range 3 :=
  find_pattern_positions_empty_cases [2, 3] [1] (by decide)

/-- C6: with a non-empty needle the restart-after-match-start scan
reports every occurrence offset exactly once, returns `[0, 1]` for the
needle `"aa"` in `"aaa"`, and returns `[k]` for a buffer whose only
occurrence is at offset `k`. -/
theorem find_pattern_positions_restart_scan (data pattern : List Nat)
    (_hpat : pattern ≠ []) :
    (∀ p, (find_pattern_positions data pattern).count p =
        if matchesAt data pattern p = true then 1 else 0) ∧
    find_pattern_positions [97, 97, 97] [97, 97] = [0, 1] ∧
    (∀ k, (∀ p, matchesAt data pattern p = true ↔ p = k) →
        find_pattern_positions data pattern = [k]) := by
  refine ⟨?_, by decide, ?_⟩
  · intro p
    have hnd : (find_pattern_positions data pattern).Nodup :=
      (find_pattern_positions_pairwise data pattern).imp (fun h => Nat.ne_of_lt h)
    by_cases hm : matchesAt data pattern p = true
    · rw [if_pos hm]
      exact List.count_eq_one_of_mem hnd ((find_pattern_positions_mem p).mpr hm)
    · rw [if_neg hm]
      apply List.count_eq_zero_of_not_mem
      intro hmem
      exact hm ((find_pattern_positions_mem p).mp hmem)
  · intro k hk
    exact find_pattern_positions_eq_singleton hk

/-- Witness for C6 at the `"aa"` / `"aaa"` instance. -/
theorem find_pattern_positions_restart_scan_witness :
    (find_pattern_positions [97, 97, 97] [97, 97]).count 1 =
      if matchesAt [97, 97, 97] [97, 97] 1 = true then 1 else 0 :=
  (find_pattern_positions_restart_scan [97, 97, 97] [97, 97] (by decide)).1 1

/-- The registry's WEBP entry, named for reuse in statements. -/
def webpSigR : FileSignature :=
  { file_type := "WEBP", extension := "webp",
    start_pattern := [0x52, 0x49, 0x46, 0x46], end_pattern := none,
    description := "WebP Image Format", min_size := 20 }

/-- A buffer whose RIFF container holds `WAVE`, not `WEBP`. -/
def waveBuf : List Nat :=
  [0x52, 0x49, 0x46, 0x46, 0x04, 0x00, 0x00, 0x00, 0x57, 0x41, 0x56, 0x45]

/-- A well-formed 20-byte WEBP container. -/
def webpBuf : List Nat :=
  [0x52, 0x49, 0x46, 0x46, 0x0C, 0x00, 0x00, 0x00, 0x57, 0x45, 0x42, 0x50] ++
    List.replicate 8 0

/-- C7: a raw RIFF match at `s` survives into the WEBP candidate list iff
the buffer extends to `s + 12` and carries `WEBP` at `[s+8, s+12)`; every
WEBP region the detector reports satisfies this, and the `WAVE` buffer
produces no WEBP candidate at all. -/
theorem webp_prefilter (binary_data : List Nat) (s : Nat) (sig : FileSignature)
    (hsig : lookupSignature "WEBP" = some sig) :
    ((s, (none : Option Nat)) ∈ find_signature_positions binary_data sig ↔
      (matchesAt binary_data [0x52, 0x49, 0x46, 0x46] s = true ∧
        s + 12 ≤ binary_data.length ∧
        (binary_data.drop (s + 8)).take 4 = [0x57, 0x45, 0x42, 0x50])) ∧
    (∀ df ∈ detect_file_signatures binary_data (some ["WEBP"]),
      matchesAt binary_data [0x52, 0x49, 0x46, 0x46] df.start_offset = true ∧
        df.start_offset + 12 ≤ binary_data.length ∧
        (binary_data.drop (df.start_offset + 8)).take 4 = [0x57, 0x45, 0x42, 0x50]) ∧
    find_signature_positions waveBuf sig = [] ∧
    detect_file_signatures waveBuf (some ["WEBP"]) = [] := by
  have hsig' : sig = webpSigR := by
    have hl : lookupSignature "WEBP" = some webpSigR := by decide
    rw [hl] at hsig
    exact (Option.some.injEq _ _).mp hsig.symm
  subst hsig'
  have hmem : ∀ (b : List Nat) (p : Nat),
      ((p, (none : Option Nat)) ∈ find_signature_positions b webpSigR ↔
      (matchesAt b [0x52, 0x49, 0x46, 0x46] p = true ∧
        p + 12 ≤ b.length ∧ (b.drop (p + 8)).take 4 = [0x57, 0x45, 0x42, 0x50])) := by
    intro b p
    unfold find_signature_positions webpSigR
    simp only [show (("WEBP" : String) = "TIFF") = False from by simp,
      show (("WEBP" : String) = "WEBP") = True from by simp, if_false, if_true,
      List.mem_map, List.mem_filter, Prod.mk.injEq]
    constructor
    · rintro ⟨a, ⟨hamem, hapred⟩, rfl, _⟩
      simp only [Bool.and_eq_true, decide_eq_true_eq, beq_iff_eq] at hapred
      exact ⟨(find_pattern_positions_mem a).mp hamem, hapred.1, hapred.2⟩
    · rintro ⟨hm, hle, hslice⟩
      refine ⟨p, ⟨(find_pattern_positions_mem p).mpr hm, ?_⟩, rfl, trivial⟩
      simp only [Bool.and_eq_true, decide_eq_true_eq, beq_iff_eq]
      exact ⟨hle, hslice⟩
  refine ⟨hmem binary_data s, ?_, ?_, by decide⟩
  · intro df hdf
    unfold detect_file_signatures at hdf
    simp only [sortByStart] at hdf
    have hdf' := (List.perm_insertionSort _ _).mem_iff.mp hdf
    simp only [List.flatMap_cons, List.flatMap_nil, List.append_nil] at hdf'
    rw [show lookupSignature "WEBP" = some webpSigR from by decide] at hdf'
    simp only [List.mem_map] at hdf'
    rcases hdf' with ⟨se, hse, rfl⟩
    have hend : se.2 = none := by
      revert hse
      unfold find_signature_positions webpSigR
      simp only [show (("WEBP" : String) = "TIFF") = False from by simp,
        show (("WEBP" : String) = "WEBP") = True from by simp, if_false, if_true,
        List.mem_map]
      rintro ⟨a, _, rfl⟩
      rfl
    have hse' : (se.1, (none : Option Nat)) ∈ find_signature_positions binary_data webpSigR := by
      rw [← hend]
      exact hse
    exact (hmem binary_data se.1).mp hse'
  · decide

/-- Witness for C7: on the well-formed WEBP buffer the offset-0 candidate
is kept. -/
theorem webp_prefilter_witness :
    (0, (none : Option Nat)) ∈ find_signature_positions webpBuf webpSigR :=
  ((webp_prefilter webpBuf 0 webpSigR (by decide)).1).mpr (by decide)

theorem sliceGetD (data : List Nat) (s n i : Nat) (h : i < n) :
    ((data.drop s).take n).getD i 0 = data.getD (s + i) 0 := by
  simp [List.getD_eq_getElem?_getD, List.getElem?_take, h, List.getElem?_drop]

/-- C4 counterexample: on a 3-byte buffer (fewer than 4 bytes available)
the JPEG validator returns `0.2`, not the claimed `0.3`; and on a 10-byte
`FF D8 FF E0` buffer, where the JFIF sub-check would need bytes beyond
the end, the factor is the generic `0.6`, not the family's base penalty
`0.8`. -/
theorem validate_jpeg_truncation_cex :
    validate_jpeg_format [0xFF, 0xD8, 0xFF] 0 none = 2 / 10 ∧
    ¬ (validate_jpeg_format [0xFF, 0xD8, 0xFF] 0 none = 3 / 10) ∧
    validate_jpeg_format [0xFF, 0xD8, 0xFF, 0xE0, 0, 0, 0, 0, 0, 0] 0 none = 6 / 10 ∧
    ¬ (validate_jpeg_format [0xFF, 0xD8, 0xFF, 0xE0, 0, 0, 0, 0, 0, 0] 0 none = 8 / 10) := by
  refine ⟨by norm_num [validate_jpeg_format], by norm_num [validate_jpeg_format],
    by norm_num [validate_jpeg_format], by norm_num [validate_jpeg_format]⟩

/-- C4 (amended): whenever fewer than 10 bytes are available from the
start offset the JPEG validator applies ×0.2 (the ×0.3 "header too
short" branch is unreachable, since the sliced header always has 10
bytes there); when at least 10 but fewer than 14 bytes are available,
an `E0` or `E8` marker byte falls through its guarded branch to the
generic ×0.6, while the `E1` branch still runs its sub-check against a
truncated slice, which fails and yields the family's base ×0.8. -/
theorem validate_jpeg_truncation (binary_data : List Nat) (start_pos : Nat)
    (end_pos : Option Nat) :
    (binary_data.length < start_pos + 10 →
      validate_jpeg_format binary_data start_pos end_pos = 2 / 10) ∧
    (start_pos + 10 ≤ binary_data.length → binary_data.length < start_pos + 14 →
      (binary_data.getD (start_pos + 3) 0 = 0xE0 →
        validate_jpeg_format binary_data start_pos end_pos = 6 / 10) ∧
      (binary_data.getD (start_pos + 3) 0 = 0xE8 →
        validate_jpeg_format binary_data start_pos end_pos = 6 / 10) ∧
      (binary_data.getD (start_pos + 3) 0 = 0xE1 →
        validate_jpeg_format binary_data start_pos end_pos = 8 / 10)) := by
  constructor
  · intro hshort
    unfold validate_jpeg_format
    rw [if_neg (by omega)]
    norm_num
  · intro hlong hshort
    have hhead : 4 ≤ ((binary_data.drop start_pos).take 10).length := by
      simp only [List.length_take, List.length_drop]
      omega
    have hfourth : ((binary_data.drop start_pos).take 10).getD 3 0 =
        binary_data.getD (start_pos + 3) 0 := sliceGetD binary_data start_pos 10 3 (by omega)
    have hexifshort : ((binary_data.drop (start_pos + 10)).take 4).length < 4 := by
      simp only [List.length_take, List.length_drop]
      omega
    have hexifne : ¬ ((binary_data.drop (start_pos + 10)).take 4 =
        [0x45, 0x78, 0x69, 0x66]) := by
      intro h
      rw [h] at hexifshort
      simp at hexifshort
    refine ⟨?_, ?_, ?_⟩
    · intro hE0
      unfold validate_jpeg_format
      rw [if_pos hlong, if_pos hhead]
      rw [if_neg (by rw [hfourth, hE0]; omega)]
      rw [if_neg (by rw [hfourth, hE0]; norm_num)]
      rw [if_neg (by rw [hfourth, hE0]; norm_num)]
      rw [if_neg (by rw [hfourth, hE0]; norm_num)]
      rw [if_neg (by rw [hfourth, hE0]; norm_num)]
      rw [if_neg (by rw [hfourth, hE0]; omega)]
      norm_num
    · intro hE8
      unfold validate_jpeg_format
      rw [if_pos hlong, if_pos hhead]
      rw [if_neg (by rw [hfourth, hE8]; norm_num)]
      rw [if_neg (by rw [hfourth, hE8]; norm_num)]
      rw [if_neg (by rw [hfourth, hE8]; omega)]
      rw [if_neg (by rw [hfourth, hE8]; norm_num)]
      rw [if_neg (by rw [hfourth, hE8]; norm_num)]
      rw [if_neg (by rw [hfourth, hE8]; omega)]
      norm_num
    · intro hE1
      unfold validate_jpeg_format
      rw [if_pos hlong, if_pos hhead]
      rw [if_neg (by rw [hfourth, hE1]; norm_num)]
      rw [if_pos (by rw [hfourth, hE1]; exact ⟨rfl, hlong⟩)]
      rw [if_neg hexifne]
      norm_num

/-- Witness for the amended C4 at four concrete truncated buffers. -/
theorem validate_jpeg_truncation_witness :
    validate_jpeg_format [0xFF, 0xD8, 0xFF] 0 none = 2 / 10 ∧
    validate_jpeg_format [0xFF, 0xD8, 0xFF, 0xE0, 0, 0, 0, 0, 0, 0] 0 none = 6 / 10 ∧
    validate_jpeg_format [0xFF, 0xD8, 0xFF, 0xE8, 0, 0, 0, 0, 0, 0] 0 none = 6 / 10 ∧
    validate_jpeg_format [0xFF, 0xD8, 0xFF, 0xE1, 0, 0, 0, 0, 0, 0] 0 none = 8 / 10 := by
  refine ⟨(validate_jpeg_truncation [0xFF, 0xD8, 0xFF] 0 none).1 (by decide),
    ((validate_jpeg_truncation [0xFF, 0xD8, 0xFF, 0xE0, 0, 0, 0, 0, 0, 0] 0 none).2
      (by decide) (by decide)).1 (by decide),
    ((validate_jpeg_truncation [0xFF, 0xD8, 0xFF, 0xE8, 0, 0, 0, 0, 0, 0] 0 none).2
      (by decide) (by decide)).2.1 (by decide),
    ((validate_jpeg_truncation [0xFF, 0xD8, 0xFF, 0xE1, 0, 0, 0, 0, 0, 0] 0 none).2
      (by decide) (by decide)).2.2 (by decide)⟩

theorem typeCheckConfidence_bounds (binary_data : List Nat) (start_pos : Nat)
    (signature : FileSignature) (c : ℚ) (hc0 : 0 ≤ c) (hc1 : c ≤ 1) :
    0 ≤ typeCheckConfidence binary_data start_pos signature c ∧
      typeCheckConfidence binary_data start_pos signature c ≤ 1 := by
  unfold typeCheckConfidence
  by_cases hW : signature.file_type = "WEBP"
  · rw [if_pos hW]
    dsimp only
    split_ifs <;> refine ⟨?_, ?_⟩ <;> linarith
  · rw [if_neg hW]
    by_cases hG : signature.file_type = "GIF"
    · rw [if_pos hG]
      dsimp only
      split_ifs <;> refine ⟨?_, ?_⟩ <;> linarith
    · rw [if_neg hG]
      by_cases hJ : signature.file_type = "JPEG"
      · rw [if_pos hJ]
        dsimp only
        split_ifs <;> refine ⟨?_, ?_⟩ <;> linarith
      · rw [if_neg hJ]
        exact ⟨hc0, hc1⟩

theorem validate_detected_file_bounds (binary_data : List Nat) (start_pos : Nat)
    (end_pos : Option Nat) (signature : FileSignature) :
    0 ≤ validate_detected_file binary_data start_pos end_pos signature ∧
      validate_detected_file binary_data start_pos end_pos signature ≤ 1 := by
  have hsize : 0 ≤ sizeCheckConfidence binary_data start_pos end_pos signature 1 ∧
      sizeCheckConfidence binary_data start_pos end_pos signature 1 ≤ 1 := by
    unfold sizeCheckConfidence
    cases end_pos <;> dsimp only <;> split_ifs <;> norm_num
  unfold validate_detected_file
  exact typeCheckConfidence_bounds binary_data start_pos signature _ hsize.1 hsize.2

/-- C8: every confidence the engine computes lies in `[0, 1]` — both the
raw result of `validate_detected_file` on any buffer, offsets and
signature (truncated buffers included), and the `confidence` field of
every region the detector returns. -/
theorem confidence_bounds (binary_data : List Nat) :
    (∀ start_pos end_pos signature,
      0 ≤ validate_detected_file binary_data start_pos end_pos signature ∧
        validate_detected_file binary_data start_pos end_pos signature ≤ 1) ∧
    (∀ target_types, ∀ df ∈ detect_file_signatures binary_data target_types,
      0 ≤ df.confidence ∧ df.confidence ≤ 1) := by
  refine ⟨fun s e sig => validate_detected_file_bounds binary_data s e sig, ?_⟩
  intro target_types df hdf
  unfold detect_file_signatures at hdf
  simp only [sortByStart] at hdf
  have hdf' := (List.perm_insertionSort _ _).mem_iff.mp hdf
  rw [List.mem_flatMap] at hdf'
  rcases hdf' with ⟨t, _, hmem⟩
  revert hmem
  cases lookupSignature t with
  | none => intro hmem; simp at hmem
  | some sig =>
    intro hmem
    simp only [List.mem_map] at hmem
    rcases hmem with ⟨se, _, rfl⟩
    exact validate_detected_file_bounds binary_data se.1 se.2 sig

/-- The registry's TIFF entry, named for reuse in statements. -/
def tiffSigR : FileSignature :=
  { file_type := "TIFF", extension := "tiff",
    start_pattern := [0x49, 0x49, 0x2A, 0x00], end_pattern := none,
    description := "Tagged Image File Format", min_size := 26 }

/-- 26-byte little-endian TIFF header whose IFD-offset field holds `2`. -/
def tiffIfd2Buf : List Nat :=
  [0x49, 0x49, 0x2A, 0x00, 0x02, 0x00, 0x00, 0x00] ++ List.replicate 18 0

/-- The region the detector builds for `tiffIfd2Buf`. -/
def tiffIfd2Region : DetectedFile :=
  { file_type := "TIFF", start_offset := 0, end_offset := none, size := none,
    signature := tiffSigR, confidence := 1 }

/-- Witness for C8: the single TIFF region detected in `tiffIfd2Buf` has
its confidence inside `[0, 1]`. -/
theorem confidence_bounds_witness :
    0 ≤ tiffIfd2Region.confidence ∧ tiffIfd2Region.confidence ≤ 1 :=
  (confidence_bounds tiffIfd2Buf).2 (some ["TIFF"]) tiffIfd2Region (by decide)

/-- C9: the reported success rate is successes over total attempts, and
`0` when nothing was attempted; exporting an empty region list reports
rate `0` with no successes and no failures. -/
theorem success_rate_spec (binary_data : List Nat) (regions : List DetectedFile)
    (output_dir : String) (file_types : Option (List String)) (min_confidence : ℚ) :
    ((extract_detected_files binary_data regions output_dir file_types
          min_confidence).total_extracted +
        (extract_detected_files binary_data regions output_dir file_types
          min_confidence).failed_extractions.length ≠ 0 →
      (extract_detected_files binary_data regions output_dir file_types
          min_confidence).success_rate =
        ((extract_detected_files binary_data regions output_dir file_types
            min_confidence).total_extracted : ℚ) /
          (((extract_detected_files binary_data regions output_dir file_types
              min_confidence).total_extracted +
            (extract_detected_files binary_data regions output_dir file_types
              min_confidence).failed_extractions.length : Nat) : ℚ)) ∧
    ((extract_detected_files binary_data regions output_dir file_types
          min_confidence).total_extracted +
        (extract_detected_files binary_data regions output_dir file_types
          min_confidence).failed_extractions.length = 0 →
      (extract_detected_files binary_data regions output_dir file_types
          min_confidence).success_rate = 0) ∧
    (extract_detected_files binary_data [] output_dir file_types
        min_confidence).success_rate = 0 ∧
    (extract_detected_files binary_data [] output_dir file_types
        min_confidence).total_extracted = 0 ∧
    (extract_detected_files binary_data [] output_dir file_types
        min_confidence).failed_extractions = [] := by
  refine ⟨?_, ?_, by rfl, by rfl, by rfl⟩
  · intro h
    unfold extract_detected_files at h ⊢
    dsimp only at h ⊢
    rw [if_pos (by omega)]
  · intro h
    unfold extract_detected_files at h ⊢
    dsimp only at h ⊢
    rw [if_neg (by omega)]

/-- Witness for C9: one attempted region (a confidence failure against
threshold `2`) gives rate `0 / 1`. -/
theorem success_rate_spec_witness :
    (extract_detected_files [] [tiffIfd2Region] "result" none 2).success_rate =
      ((extract_detected_files [] [tiffIfd2Region] "result" none 2).total_extracted : ℚ) /
        (((extract_detected_files [] [tiffIfd2Region] "result" none 2).total_extracted +
          (extract_detected_files [] [tiffIfd2Region] "result"
            none 2).failed_extractions.length : Nat) : ℚ) :=
  (success_rate_spec [] [tiffIfd2Region] "result" none 2).1 (by decide)

theorem extractLoop_filter_empty (binary_data : List Nat) (min_confidence : ℚ) :
    ∀ (regions : List DetectedFile) (counter : Nat),
      extractLoop binary_data regions (some []) min_confidence counter =
        extractLoop binary_data regions none min_confidence counter := by
  intro regions
  induction regions with
  | nil => intro counter; rfl
  | cons df rest ih =>
    intro counter
    unfold extractLoop
    rw [show typeFilterSkips (some []) df.file_type = false from rfl,
      show typeFilterSkips none df.file_type = false from rfl]
    simp only [Bool.false_eq_true, if_false]
    by_cases hc : df.confidence < min_confidence
    · rw [if_pos hc, if_pos hc, ih]
    · rw [if_neg hc, if_neg hc]
      cases hx : extract_file_data binary_data df <;> simp only [ih]

/-- C10: passing an empty type-filter list behaves exactly like passing
no filter at all, because the guard tests the list's truthiness first. -/
theorem empty_type_filter_eq_none (binary_data : List Nat) (regions : List DetectedFile)
    (output_dir : String) (min_confidence : ℚ) :
    extract_detected_files binary_data regions output_dir (some []) min_confidence =
      extract_detected_files binary_data regions output_dir none min_confidence := by
  unfold extract_detected_files
  rw [extractLoop_filter_empty]

/-- The registry's JPEG entry, named for reuse in statements. -/
def jpegSigR : FileSignature :=
  { file_type := "JPEG", extension := "jpg",
    start_pattern := [0xFF, 0xD8, 0xFF], end_pattern := some [0xFF, 0xD9],
    description := "JPEG Image File (JFIF/Exif/Generic)", min_size := 100 }

/-- The registry's PNG entry, named for reuse in statements. -/
def pngSigR : FileSignature :=
  { file_type := "PNG", extension := "png",
    start_pattern := [0x89, 0x50, 0x4E, 0x47, 0x0D, 0x0A, 0x1A, 0x0A],
    end_pattern := some [0x49, 0x45, 0x4E, 0x44, 0xAE, 0x42, 0x60, 0x82],
    description := "Portable Network Graphics Image", min_size := 50 }

/-- A minimal valid 58-byte PNG: signature, IHDR, a one-byte IDAT, and
the IEND chunk with its fixed CRC. -/
def pngBytes : List Nat :=
  [0x89, 0x50, 0x4E, 0x47, 0x0D, 0x0A, 0x1A, 0x0A] ++
  [0x00, 0x00, 0x00, 0x0D] ++ [0x49, 0x48, 0x44, 0x52] ++
  [0x00, 0x00, 0x00, 0x01, 0x00, 0x00, 0x00, 0x01, 0x08, 0x02, 0x00, 0x00, 0x00] ++
  [0x90, 0x77, 0x53, 0xDE] ++
  [0x00, 0x00, 0x00, 0x01] ++ [0x49, 0x44, 0x41, 0x54] ++ [0x00] ++
  [0x18, 0xDD, 0x8D, 0xB0] ++
  [0x00, 0x00, 0x00, 0x00] ++ [0x49, 0x45, 0x4E, 0x44] ++ [0xAE, 0x42, 0x60, 0x82]

/-- A JPEG region whose 10-byte slice is below the 100-byte JPEG size
floor: the exporter records it as a size failure. -/
def sizeFailRegion : DetectedFile :=
  { file_type := "JPEG", start_offset := 0, end_offset := some 10, size := some 10,
    signature := jpegSigR, confidence := 1 }

/-- A PNG region covering all of `pngBytes`: the exporter extracts it. -/
def nextRegion : DetectedFile :=
  { file_type := "PNG", start_offset := 0, end_offset := some 58, size := some 58,
    signature := pngSigR, confidence := 1 }

/-- C2 evaluation: after the size failure consumes attempt number 1, the
next (successful) region is numbered 1 as well — the size-failure branch
`continue`s past the counter increment, unlike the confidence-failure
branch. -/
theorem export_size_failure_counter_eval :
    (extract_detected_files pngBytes [sizeFailRegion, nextRegion] "result"
        none 0).failed_extractions =
      [{ file_number := 1, file_type := "JPEG",
         reason := "Failed to extract data or file too small" }] ∧
    (extract_detected_files pngBytes [sizeFailRegion, nextRegion] "result"
        none 0).extracted_files.map (fun e => e.file_number) = [1] := by
  constructor <;> decide

/-- The PNG signature followed by a chunk tagged `XXXX` instead of
`IHDR`, padded to 58 bytes and closed by the IEND trailer. -/
def pngNoIhdrBuf : List Nat :=
  [0x89, 0x50, 0x4E, 0x47, 0x0D, 0x0A, 0x1A, 0x0A] ++
  [0x00, 0x00, 0x00, 0x0D] ++ [0x58, 0x58, 0x58, 0x58] ++
  List.replicate 30 1 ++
  [0x00, 0x00, 0x00, 0x00] ++ [0x49, 0x45, 0x4E, 0x44] ++ [0xAE, 0x42, 0x60, 0x82]

/-- The region the detector builds for `pngNoIhdrBuf`. -/
def pngNoIhdrRegion : DetectedFile :=
  { file_type := "PNG", start_offset := 0, end_offset := some 58, size := some 58,
    signature := pngSigR, confidence := 1 }

/-- C1 evaluation: the detector assigns confidence `1.0` to a TIFF
candidate whose IFD offset is `2` and to a PNG candidate without `IHDR`,
while the registered validators return `0.5` and `0.4`; the detection
path never invokes the validators of `validators.py`, so the detected
confidence is not the size-floor factor times the validator result. -/
theorem validator_not_applied_eval :
    detect_file_signatures tiffIfd2Buf (some ["TIFF"]) = [tiffIfd2Region] ∧
    validate_format "TIFF" tiffIfd2Buf 0 none = 5 / 10 ∧
    detect_file_signatures pngNoIhdrBuf (some ["PNG"]) = [pngNoIhdrRegion] ∧
    validate_format "PNG" pngNoIhdrBuf 0 (some 58) = 4 / 10 := by
  refine ⟨by decide, ?_, by decide, ?_⟩
  · rw [validate_format]
    rw [if_neg (by decide), if_neg (by decide), if_neg (by decide), if_neg (by decide),
      if_pos rfl]
    norm_num [validate_tiff_format, tiffIfd2Buf, leU32]
  · rw [validate_format]
    rw [if_neg (by decide), if_neg (by decide), if_neg (by decide), if_pos rfl]
    norm_num [validate_png_format, pngNoIhdrBuf]

/-- A minimal valid 100-byte JFIF JPEG: `FF D8 FF E0`, length field,
`JFIF\0`, padding, `FF D9` trailer. -/
def jpegBytes : List Nat :=
  [0xFF, 0xD8, 0xFF, 0xE0, 0x00, 0x10, 0x4A, 0x46, 0x49, 0x46, 0x00] ++
    List.replicate 87 0x11 ++ [0xFF, 0xD9]

/-- The round-trip buffer: minimal JPEG, then minimal PNG, then filler. -/
def roundTripBuf (filler : List Nat) : List Nat :=
  jpegBytes ++ pngBytes ++ filler

theorem sliceAppend (l rest : List Nat) (s n : Nat) (h : s + n ≤ l.length) :
    ((l ++ rest).drop s).take n = (l.drop s).take n := by
  rw [List.drop_append_of_le_length (by omega), List.take_append_of_le_length]
  simp only [List.length_drop]
  omega

theorem roundTripBuf_len (filler : List Nat) :
    (roundTripBuf filler).length = 158 + filler.length := by
  simp [roundTripBuf, jpegBytes, pngBytes]
  omega

theorem matchesAt_false_beyond {data pattern : List Nat} {p : Nat}
    (h : ¬ p ≤ data.length) : matchesAt data pattern p = false := by
  cases hm : matchesAt data pattern p
  · rfl
  · exact absurd (matchesAt_le hm) h

/-- The JPEG region the detector reports for the round-trip buffer. -/
def jpegRegionRT : DetectedFile :=
  { file_type := "JPEG", start_offset := 0, end_offset := some 100, size := some 100,
    signature := jpegSigR, confidence := 1 }

/-- The PNG region the detector reports for the round-trip buffer. -/
def pngRegionRT : DetectedFile :=
  { file_type := "PNG", start_offset := 100, end_offset := some 158, size := some 58,
    signature := pngSigR, confidence := 1 }

/-- The registry's GIF entry, named for reuse in statements. -/
def gifSigR : FileSignature :=
  { file_type := "GIF", extension := "gif",
    start_pattern := [0x47, 0x49, 0x46, 0x38], end_pattern := some [0x00, 0x3B],
    description := "Graphics Interchange Format Image", min_size := 35 }

/-- C5: for the buffer made of a minimal valid JFIF JPEG, a minimal
valid PNG and filler bytes containing no start- or end-signature
occurrences beyond the intended ones, the detector reports exactly the
two regions, each with its end offset set and confidence `1.0`, and the
exporter at the default threshold extracts for each region exactly the
source slice `buffer[start_offset:end_offset]`. -/
theorem round_trip (filler : List Nat)
    (hJ : ∀ p, p ≤ (roundTripBuf filler).length →
      (matchesAt (roundTripBuf filler) [0xFF, 0xD8, 0xFF] p = true ↔ p = 0))
    (hP : ∀ p, p ≤ (roundTripBuf filler).length →
      (matchesAt (roundTripBuf filler) [0x89, 0x50, 0x4E, 0x47, 0x0D, 0x0A, 0x1A, 0x0A] p = true
        ↔ p = 100))
    (hG : ∀ p, p ≤ (roundTripBuf filler).length →
      matchesAt (roundTripBuf filler) [0x47, 0x49, 0x46, 0x38] p = false)
    (hR : ∀ p, p ≤ (roundTripBuf filler).length →
      matchesAt (roundTripBuf filler) [0x52, 0x49, 0x46, 0x46] p = false)
    (hT1 : ∀ p, p ≤ (roundTripBuf filler).length →
      matchesAt (roundTripBuf filler) [0x49, 0x49, 0x2A, 0x00] p = false)
    (hT2 : ∀ p, p ≤ (roundTripBuf filler).length →
      matchesAt (roundTripBuf filler) [0x4D, 0x4D, 0x00, 0x2A] p = false)
    (hJE : ∀ p, p ≤ (roundTripBuf filler).length →
      (matchesAt (roundTripBuf filler) [0xFF, 0xD9] p = true ↔ p = 98))
    (hPE : ∀ p, p ≤ (roundTripBuf filler).length →
      (matchesAt (roundTripBuf filler) [0x49, 0x45, 0x4E, 0x44, 0xAE, 0x42, 0x60, 0x82] p = true
        ↔ p = 150)) :
    detect_file_signatures (roundTripBuf filler) none = [jpegRegionRT, pngRegionRT] ∧
    (extract_detected_files (roundTripBuf filler)
        (detect_file_signatures (roundTripBuf filler) none) "result" none
        (5 / 10)).extracted_files.map (fun e => e.data) =
      [((roundTripBuf filler).drop 0).take 100, ((roundTripBuf filler).drop 100).take 58] ∧
    (extract_detected_files (roundTripBuf filler)
        (detect_file_signatures (roundTripBuf filler) none) "result" none
        (5 / 10)).failed_extractions = [] ∧
    ((roundTripBuf filler).drop 0).take 100 = jpegBytes ∧
    ((roundTripBuf filler).drop 100).take 58 = pngBytes := by
  have hlen := roundTripBuf_len filler
  -- unbounded versions of the occurrence hypotheses
  have hJ' : ∀ p, matchesAt (roundTripBuf filler) [0xFF, 0xD8, 0xFF] p = true ↔ p = 0 := by
    intro p
    constructor
    · intro hm; exact (hJ p (matchesAt_le hm)).mp hm
    · rintro rfl; exact (hJ 0 (Nat.zero_le _)).mpr rfl
  have hP' : ∀ p, matchesAt (roundTripBuf filler)
      [0x89, 0x50, 0x4E, 0x47, 0x0D, 0x0A, 0x1A, 0x0A] p = true ↔ p = 100 := by
    intro p
    constructor
    · intro hm; exact (hP p (matchesAt_le hm)).mp hm
    · rintro rfl; exact (hP 100 (by omega)).mpr rfl
  have hG' : ∀ p, matchesAt (roundTripBuf filler) [0x47, 0x49, 0x46, 0x38] p = false := by
    intro p
    by_cases hp : p ≤ (roundTripBuf filler).length
    · exact hG p hp
    · exact matchesAt_false_beyond hp
  have hR' : ∀ p, matchesAt (roundTripBuf filler) [0x52, 0x49, 0x46, 0x46] p = false := by
    intro p
    by_cases hp : p ≤ (roundTripBuf filler).length
    · exact hR p hp
    · exact matchesAt_false_beyond hp
  have hT1' : ∀ p, matchesAt (roundTripBuf filler) [0x49, 0x49, 0x2A, 0x00] p = false := by
    intro p
    by_cases hp : p ≤ (roundTripBuf filler).length
    · exact hT1 p hp
    · exact matchesAt_false_beyond hp
  have hT2' : ∀ p, matchesAt (roundTripBuf filler) [0x4D, 0x4D, 0x00, 0x2A] p = false := by
    intro p
    by_cases hp : p ≤ (roundTripBuf filler).length
    · exact hT2 p hp
    · exact matchesAt_false_beyond hp
  have hJE' : ∀ p, matchesAt (roundTripBuf filler) [0xFF, 0xD9] p = true ↔ p = 98 := by
    intro p
    constructor
    · intro hm; exact (hJE p (matchesAt_le hm)).mp hm
    · rintro rfl; exact (hJE 98 (by omega)).mpr rfl
  have hPE' : ∀ p, matchesAt (roundTripBuf filler)
      [0x49, 0x45, 0x4E, 0x44, 0xAE, 0x42, 0x60, 0x82] p = true ↔ p = 150 := by
    intro p
    constructor
    · intro hm; exact (hPE p (matchesAt_le hm)).mp hm
    · rintro rfl; exact (hPE 150 (by omega)).mpr rfl
  -- start-pattern searches
  have e1 : find_pattern_positions (roundTripBuf filler) [0xFF, 0xD8, 0xFF] = [0] :=
    find_pattern_positions_eq_singleton hJ'
  have e2 : find_pattern_positions (roundTripBuf filler)
      [0x89, 0x50, 0x4E, 0x47, 0x0D, 0x0A, 0x1A, 0x0A] = [100] :=
    find_pattern_positions_eq_singleton hP'
  have e3 : find_pattern_positions (roundTripBuf filler) [0x47, 0x49, 0x46, 0x38] = [] :=
    find_pattern_positions_eq_nil hG'
  have e4 : find_pattern_positions (roundTripBuf filler) [0x52, 0x49, 0x46, 0x46] = [] :=
    find_pattern_positions_eq_nil hR'
  have e5 : find_pattern_positions (roundTripBuf filler) [0x49, 0x49, 0x2A, 0x00] = [] :=
    find_pattern_positions_eq_nil hT1'
  have e6 : find_pattern_positions (roundTripBuf filler) [0x4D, 0x4D, 0x00, 0x2A] = [] :=
    find_pattern_positions_eq_nil hT2'
  -- end-pattern searches
  have e7 : pyFind (roundTripBuf filler) [0xFF, 0xD9] 3 = some 98 :=
    pyFind_eq_some_of_unique (by omega) ((hJE' 98).mpr rfl) (fun q hq => (hJE' q).mp hq)
  have e8 : pyFind (roundTripBuf filler)
      [0x49, 0x45, 0x4E, 0x44, 0xAE, 0x42, 0x60, 0x82] 108 = some 150 :=
    pyFind_eq_some_of_unique (by omega) ((hPE' 150).mpr rfl) (fun q hq => (hPE' q).mp hq)
  -- per-signature candidate lists
  have f1 : find_signature_positions (roundTripBuf filler) jpegSigR = [(0, some 100)] := by
    unfold find_signature_positions jpegSigR
    dsimp only
    rw [if_neg (by decide), if_neg (by decide)]
    rw [e1]
    simp only [List.map_cons, List.map_nil, List.length_cons, List.length_nil, Nat.zero_add]
    rw [e7]
  have f2 : find_signature_positions (roundTripBuf filler) pngSigR = [(100, some 158)] := by
    unfold find_signature_positions pngSigR
    dsimp only
    rw [if_neg (by decide), if_neg (by decide)]
    rw [e2]
    simp only [List.map_cons, List.map_nil, List.length_cons, List.length_nil]
    rw [show (100 + 8 : Nat) = 108 from rfl]
    rw [e8]
  have f3 : find_signature_positions (roundTripBuf filler) gifSigR = [] := by
    unfold find_signature_positions gifSigR
    dsimp only
    rw [if_neg (by decide), if_neg (by decide)]
    rw [e3]
    rfl
  have f4 : find_signature_positions (roundTripBuf filler) webpSigR = [] := by
    unfold find_signature_positions webpSigR
    dsimp only
    rw [if_pos rfl, if_neg (by decide)]
    rw [e4]
    rfl
  have f5 : find_signature_positions (roundTripBuf filler) tiffSigR = [] := by
    unfold find_signature_positions tiffSigR
    dsimp only
    rw [if_neg (by decide), if_pos rfl]
    rw [e5, e6]
    rfl
  -- confidence of the two regions
  have hsliceJ4 : ((roundTripBuf filler).drop 6).take 4 = [0x4A, 0x46, 0x49, 0x46] := by
    unfold roundTripBuf
    rw [List.append_assoc, sliceAppend jpegBytes _ 6 4 (by decide)]
    decide
  have hslice10 : ((roundTripBuf filler).drop 0).take 10 =
      [0xFF, 0xD8, 0xFF, 0xE0, 0x00, 0x10, 0x4A, 0x46, 0x49, 0x46] := by
    unfold roundTripBuf
    rw [List.append_assoc, sliceAppend jpegBytes _ 0 10 (by decide)]
    decide
  have cJ : validate_detected_file (roundTripBuf filler) 0 (some 100) jpegSigR = 1 := by
    unfold validate_detected_file
    have hsz : sizeCheckConfidence (roundTripBuf filler) 0 (some 100) jpegSigR 1 = 1 := by
      unfold sizeCheckConfidence jpegSigR
      dsimp only
      rw [if_neg (by norm_num)]
    rw [hsz]
    unfold typeCheckConfidence jpegSigR
    dsimp only
    rw [if_neg (by decide), if_neg (by decide), if_pos rfl]
    rw [if_pos (by omega : (0 : Nat) + 10 ≤ (roundTripBuf filler).length)]
    rw [show ((roundTripBuf filler).drop 0).take 10 =
      [0xFF, 0xD8, 0xFF, 0xE0, 0x00, 0x10, 0x4A, 0x46, 0x49, 0x46] from hslice10]
    rw [if_pos (by decide : (4:Nat) ≤ ([0xFF, 0xD8, 0xFF, 0xE0, 0x00, 0x10, 0x4A, 0x46, 0x49, 0x46] : List Nat).length)]
    rw [if_pos ⟨by decide, by omega⟩]
    rw [show ((roundTripBuf filler).drop (0 + 6)).take 4 = [0x4A, 0x46, 0x49, 0x46] from hsliceJ4]
    rw [if_pos rfl]
    norm_num
  have cP : validate_detected_file (roundTripBuf filler) 100 (some 158) pngSigR = 1 := by
    unfold validate_detected_file
    have hsz : sizeCheckConfidence (roundTripBuf filler) 100 (some 158) pngSigR 1 = 1 := by
      unfold sizeCheckConfidence pngSigR
      dsimp only
      rw [if_neg (by norm_num)]
    rw [hsz]
    unfold typeCheckConfidence pngSigR
    dsimp only
    rw [if_neg (by decide), if_neg (by decide), if_neg (by decide)]
  -- the detector's output
  have hdet : detect_file_signatures (roundTripBuf filler) none =
      [jpegRegionRT, pngRegionRT] := by
    unfold detect_file_signatures
    dsimp only
    rw [show registryKeys = ["JPEG", "PNG", "GIF", "WEBP", "TIFF"] from rfl]
    simp only [List.flatMap_cons, List.flatMap_nil]
    rw [show lookupSignature "JPEG" = some jpegSigR from by decide,
      show lookupSignature "PNG" = some pngSigR from by decide,
      show lookupSignature "GIF" = some gifSigR from by decide,
      show lookupSignature "WEBP" = some webpSigR from by decide,
      show lookupSignature "TIFF" = some tiffSigR from by decide]
    dsimp only
    rw [f1, f2, f3, f4, f5]
    simp only [List.map_cons, List.map_nil, List.append_nil, List.nil_append]
    rw [cJ, cP]
    rw [show Option.map (fun e => e - 0) (some 100) = some 100 from rfl,
      show Option.map (fun e => e - 100) (some 158) = some 58 from rfl]
    unfold sortByStart jpegRegionRT pngRegionRT jpegSigR pngSigR
    decide
  -- the exported bytes
  have hs1 : ((roundTripBuf filler).drop 0).take 100 = jpegBytes := by
    unfold roundTripBuf
    rw [List.append_assoc, List.drop_zero, List.take_append_of_le_length (by decide)]
    decide
  have hs2 : ((roundTripBuf filler).drop 100).take 58 = pngBytes := by
    unfold roundTripBuf
    rw [List.append_assoc,
      List.drop_append_of_le_length (by decide : (100:Nat) ≤ jpegBytes.length),
      show jpegBytes.drop 100 = [] from by decide, List.nil_append,
      List.take_append_of_le_length (by decide)]
    decide
  have g1 : extract_file_data (roundTripBuf filler) jpegRegionRT = some jpegBytes := by
    unfold extract_file_data jpegRegionRT jpegSigR
    dsimp only
    rw [show (100 - 0 : Nat) = 100 from rfl, hs1]
    rw [if_neg (by decide)]
  have g2 : extract_file_data (roundTripBuf filler) pngRegionRT = some pngBytes := by
    unfold extract_file_data pngRegionRT pngSigR
    dsimp only
    rw [show (158 - 100 : Nat) = 58 from rfl, hs2]
    rw [if_neg (by decide)]
  have hloop : extractLoop (roundTripBuf filler) [jpegRegionRT, pngRegionRT] none (5 / 10) 1 =
      ([{ file_number := 1, filename := "file-001.jpg", file_type := "JPEG",
          extension := "jpg", size := jpegBytes.length, original_start := 0,
          original_end := some 100, confidence := 1, data := jpegBytes },
        { file_number := 2, filename := "file-002.png", file_type := "PNG",
          extension := "png", size := pngBytes.length, original_start := 100,
          original_end := some 158, confidence := 1, data := pngBytes }], []) := by
    unfold extractLoop
    rw [show typeFilterSkips none jpegRegionRT.file_type = false from rfl]
    simp only [Bool.false_eq_true, if_false]
    rw [if_neg (by norm_num [jpegRegionRT])]
    rw [g1]
    unfold extractLoop
    rw [show typeFilterSkips none pngRegionRT.file_type = false from rfl]
    simp only [Bool.false_eq_true, if_false]
    rw [if_neg (by norm_num [pngRegionRT])]
    rw [g2]
    unfold extractLoop
    dsimp only
    unfold jpegRegionRT pngRegionRT jpegSigR pngSigR generate_filename pad3
    dsimp only
    norm_num
    exact ⟨by decide, by decide⟩
  refine ⟨hdet, ?_, ?_, hs1, hs2⟩
  · rw [hdet]
    unfold extract_detected_files
    rw [hloop]
    dsimp only
    rw [hs1, hs2]
    simp only [List.map_cons, List.map_nil]
  · rw [hdet]
    unfold extract_detected_files
    rw [hloop]

/-- Concrete filler for the round-trip witness. -/
def fillerW : List Nat := List.replicate 16 0xAA

set_option maxRecDepth 4096 in
/-- Witness for C5 at a concrete 174-byte buffer. -/
theorem round_trip_witness :
    detect_file_signatures (roundTripBuf fillerW) none = [jpegRegionRT, pngRegionRT] ∧
    (extract_detected_files (roundTripBuf fillerW)
        (detect_file_signatures (roundTripBuf fillerW) none) "result" none
        (5 / 10)).extracted_files.map (fun e => e.data) =
      [((roundTripBuf fillerW).drop 0).take 100, ((roundTripBuf fillerW).drop 100).take 58] ∧
    (extract_detected_files (roundTripBuf fillerW)
        (detect_file_signatures (roundTripBuf fillerW) none) "result" none
        (5 / 10)).failed_extractions = [] ∧
    ((roundTripBuf fillerW).drop 0).take 100 = jpegBytes ∧
    ((roundTripBuf fillerW).drop 100).take 58 = pngBytes :=
  round_trip fillerW (by decide) (by decide) (by decide) (by decide) (by decide)
    (by decide) (by decide) (by decide)
